import Mathlib

/-!
Shallow embedding of the swiss_public_transport integration
(coordinator.py and sensor.py) and proofs about it.

Modelling conventions:
* Python datetimes are integer timestamps (`Int`); the current local time is a
  parameter `now : Int`.
* `dt_util.parse_datetime` lives outside the two source files, so it is taken
  as a parameter `parse : String → Option Int`.
* Python values flowing out of `value_fn` are represented by the `PyValue`
  inductive; Python `None` is `Option.none`.
* A raised exception is an `Except.error`; in particular Python list indexing
  `data[i]` is total here and returns `Except.error PyError.indexError` out of
  range, mirroring `IndexError`.
-/

namespace SwissPublicTransport

/-- One raw upstream connection dict, with the keys read by
`_async_update_data` in coordinator.py: `departure`, `number`, `platform`,
`transfers`, `duration`, `delay`. -/
structure RawConnection where
  departure : String
  number : String
  platform : String
  transfers : String
  duration : String
  delay : Int
  deriving DecidableEq

/-- The `DataConnection` TypedDict of coordinator.py. `departure` is
`datetime | None`; the other fields keep the TypedDict's types. -/
structure DataConnection where
  departure : Option Int
  duration : String
  platform : String
  remaining_time : String
  start : String
  destination : String
  train_number : String
  transfers : String
  delay : Int
  deriving DecidableEq

/-- `SwissPublicTransportDataUpdateCoordinator.remaining_time` of
coordinator.py: parse the departure string; if it parses, return the delta to
the current local time, else `None`. -/
def remaining_time (parse : String → Option Int) (now : Int)
    (departure : String) : Option Int :=
  match parse departure with
  | some departure_datetime => some (departure_datetime - now)
  | none => none

/-- Python `str(...)` applied to the `timedelta | None` result of
`remaining_time` in coordinator.py line 83. The exact `timedelta`
serialization is irrelevant to every claim; `toString` of the delta stands in
for it, `"None"` for `str(None)`. -/
def str_of_remaining : Option Int → String
  | none => "None"
  | some d => toString d

/-- The `DataConnection(...)` constructor call inside the list comprehension
of `_async_update_data` (coordinator.py lines 73-85), applied to one raw
connection. -/
def dataConnectionOf (parse : String → Option Int) (now : Int)
    (from_name to_name : String) (c : RawConnection) : DataConnection :=
  { departure := parse c.departure
    train_number := c.number
    platform := c.platform
    transfers := c.transfers
    duration := c.duration
    start := from_name
    destination := to_name
    remaining_time := str_of_remaining (remaining_time parse now c.departure)
    delay := c.delay }

/-- The success-path list comprehension of `_async_update_data`
(coordinator.py lines 72-88):
`[DataConnection(...) for i in range(SENSOR_CONNECTIONS_COUNT)
  if len(connections) > i and connections[i] is not None]`.
`count` is `SENSOR_CONNECTIONS_COUNT` (defined in const.py, outside the two
embedded files, so kept as a parameter). `connections[i]? = some (some c)`
holds exactly when `len(connections) > i and connections[i] is not None`. -/
def published_connections (parse : String → Option Int) (now : Int)
    (count : Nat) (from_name to_name : String)
    (connections : List (Option RawConnection)) : List DataConnection :=
  (List.range count).filterMap fun i =>
    match connections[i]? with
    | some (some c) => some (dataConnectionOf parse now from_name to_name c)
    | _ => none

/-- The exception raised by `self._opendata.async_get_data()`. -/
inductive OpendataTransportError
  | connectionError
  deriving DecidableEq

/-- The `UpdateFailed` signal raised to the host scheduler. -/
inductive UpdateFailed
  | updateFailed
  deriving DecidableEq

/-- `_async_update_data` of coordinator.py in full: the fetch either raises
an `OpendataTransportError` or yields the upstream connection list (the
client stores it on `self._opendata.connections`; here the `Except` value
carries it). On fetch failure the method raises `UpdateFailed`; on success it
returns the published connection list. -/
def async_update_data (parse : String → Option Int) (now : Int) (count : Nat)
    (from_name to_name : String)
    (fetch : Except OpendataTransportError (List (Option RawConnection))) :
    Except UpdateFailed (List DataConnection) :=
  match fetch with
  | .error _ => .error .updateFailed
  | .ok connections =>
      .ok (published_connections parse now count from_name to_name connections)

/-- The coordinator's published state: `data` is the last successful result
(`None` before the first refresh), `last_update_success` the host flag. -/
structure CoordinatorState where
  data : Option (List DataConnection)
  last_update_success : Bool

/-- Modelled from the spec: the host `DataUpdateCoordinator` refresh step
(homeassistant/helpers/update_coordinator.py, not under src). Per spec
section 4.1/7: on failure it surfaces an update-failed signal and leaves the
previously published Result Set unchanged; on success it replaces the
published Result Set wholesale. Returns the new state and whether the
update-failed signal was emitted. -/
def refreshStep (st : CoordinatorState)
    (result : Except UpdateFailed (List DataConnection)) :
    CoordinatorState × Bool :=
  match result with
  | .error _ => ({ st with last_update_success := false }, true)
  | .ok d => ({ data := some d, last_update_success := true }, false)

/-- The `SensorDeviceClass` members used in sensor.py. -/
inductive SensorDeviceClass
  | timestamp
  | duration
  deriving DecidableEq

/-- The `UnitOfTime` members used in sensor.py. -/
inductive UnitOfTime
  | seconds
  | minutes
  deriving DecidableEq

/-- A Python value produced by a sensor's `value_fn`. -/
inductive PyValue
  | pyNone
  | str (s : String)
  | int (n : Int)
  | datetime (t : Int)
  deriving DecidableEq

/-- The `datetime | None` field `departure` as a Python value. -/
def PyValue.ofDatetime : Option Int → PyValue
  | none => .pyNone
  | some t => .datetime t

/-- `SwissPublicTransportSensorEntityDescription` of sensor.py (lines 53-60),
with the `SensorEntityDescription` base-class fields that sensor.py sets.
`exists_fn` takes an optional record so that the Python identity test
`data_connection is not None` is expressible; `value_fn` subscripts its
argument and hence takes a real record. -/
structure SwissPublicTransportSensorEntityDescription where
  key : String
  translation_key : String
  device_class : Option SensorDeviceClass := none
  native_unit_of_measurement : Option UnitOfTime := none
  icon : String
  exists_fn : Option DataConnection → Bool := fun _ => true
  value_fn : DataConnection → PyValue
  index : Option Nat := none

/-- Python `x or default` on an `int | None`: `None` and `0` are falsy and
yield the default; any other number yields itself. This is the `index or 0`
expression of sensor.py lines 203 and 210. -/
def pyOr (x : Option Nat) (default : Nat) : Nat :=
  match x with
  | none => default
  | some n => if n = 0 then default else n

/-- The departure entry of `SENSORS` for slot `i` (sensor.py lines 64-75).
The key is the f-string `departure{i or ''}`: `"departure"` for `i = 0`,
`"departure1"`, `"departure2"`, ... otherwise. -/
def departureDescription (i : Nat) :
    SwissPublicTransportSensorEntityDescription :=
  { key := "departure" ++ (if i = 0 then "" else toString i)
    translation_key := "departure" ++ toString i
    device_class := some .timestamp
    icon := "mdi:bus-clock"
    value_fn := fun data_connection => .ofDatetime data_connection.departure
    exists_fn := fun data_connection => data_connection.isSome
    index := some i }

/-- The `duration` entry of `SENSORS` (sensor.py lines 76-84). -/
def durationDescription : SwissPublicTransportSensorEntityDescription :=
  { key := "duration"
    translation_key := "duration"
    device_class := some .duration
    native_unit_of_measurement := some .seconds
    icon := "mdi:timeline-clock"
    value_fn := fun data_connection => .str data_connection.duration
    exists_fn := fun data_connection => data_connection.isSome }

/-- The `transfers` entry of `SENSORS` (sensor.py lines 85-91). -/
def transfersDescription : SwissPublicTransportSensorEntityDescription :=
  { key := "transfers"
    translation_key := "transfers"
    icon := "mdi:transit-transfer"
    value_fn := fun data_connection => .str data_connection.transfers
    exists_fn := fun data_connection => data_connection.isSome }

/-- The `platform` entry of `SENSORS` (sensor.py lines 92-98). -/
def platformDescription : SwissPublicTransportSensorEntityDescription :=
  { key := "platform"
    translation_key := "platform"
    icon := "mdi:bus-stop-uncovered"
    value_fn := fun data_connection => .str data_connection.platform
    exists_fn := fun data_connection => data_connection.isSome }

/-- The `delay` entry of `SENSORS` (sensor.py lines 99-107). -/
def delayDescription : SwissPublicTransportSensorEntityDescription :=
  { key := "delay"
    translation_key := "delay"
    device_class := some .duration
    native_unit_of_measurement := some .minutes
    icon := "mdi:clock-plus"
    value_fn := fun data_connection => .int data_connection.delay
    exists_fn := fun data_connection => data_connection.isSome }

/-- The `SENSORS` tuple of sensor.py (lines 63-108): one departure
description per slot in `range(SENSOR_CONNECTIONS_COUNT)`, then duration,
transfers, platform and delay. -/
def SENSORS (count : Nat) :
    List SwissPublicTransportSensorEntityDescription :=
  (List.range count).map departureDescription ++
    [durationDescription, transfersDescription, platformDescription,
      delayDescription]

/-- Python exceptions that sensor property evaluation can raise:
`IndexError` from `data[i]` out of range, `TypeError` from subscripting
`coordinator.data` while it is still `None`. -/
inductive PyError
  | indexError
  | typeError
  deriving DecidableEq

/-- `SwissPublicTransportSensor.enabled` (sensor.py lines 199-204) as a
function of the published connection list:
`exists_fn(coordinator.data[index or 0])`, where out-of-range indexing
raises `IndexError`. -/
def SwissPublicTransportSensor.enabled
    (desc : SwissPublicTransportSensorEntityDescription)
    (data : List DataConnection) : Except PyError Bool :=
  match data[pyOr desc.index 0]? with
  | some data_connection => .ok (desc.exists_fn (some data_connection))
  | none => .error .indexError

/-- `SwissPublicTransportSensor.native_value` (sensor.py lines 206-211) as a
function of the published connection list:
`value_fn(coordinator.data[index or 0])`, where out-of-range indexing raises
`IndexError`. -/
def SwissPublicTransportSensor.native_value
    (desc : SwissPublicTransportSensorEntityDescription)
    (data : List DataConnection) : Except PyError PyValue :=
  match data[pyOr desc.index 0]? with
  | some data_connection => .ok (desc.value_fn data_connection)
  | none => .error .indexError

/-- Evaluating the `enabled` property getter against the coordinator state:
it reads `self.coordinator.data` (raising `TypeError` if that is still
`None`) and performs no write, so the state is returned unchanged. -/
def runEnabled (desc : SwissPublicTransportSensorEntityDescription)
    (st : CoordinatorState) : Except PyError Bool × CoordinatorState :=
  (match st.data with
   | some data => SwissPublicTransportSensor.enabled desc data
   | none => .error .typeError, st)

/-- Evaluating the `native_value` property getter against the coordinator
state: it reads `self.coordinator.data` (raising `TypeError` if that is
still `None`) and performs no write, so the state is returned unchanged. -/
def runNativeValue (desc : SwissPublicTransportSensorEntityDescription)
    (st : CoordinatorState) : Except PyError PyValue × CoordinatorState :=
  (match st.data with
   | some data => SwissPublicTransportSensor.native_value desc data
   | none => .error .typeError, st)

/-! ### Helper lemmas -/

/-- The comprehension over `range count` filtered on
`len(connections) > i and connections[i] is not None` equals mapping over the
non-null entries of the first `count` upstream connections. -/
theorem published_connections_eq_take (parse : String → Option Int)
    (now : Int) (count : Nat) (from_name to_name : String)
    (connections : List (Option RawConnection)) :
    published_connections parse now count from_name to_name connections =
      (connections.take count).filterMap
        (fun oc => oc.map (dataConnectionOf parse now from_name to_name)) := by
  induction count with
  | zero => rfl
  | succ n ih =>
      rw [published_connections, List.range_succ, List.filterMap_append,
        List.take_succ, List.filterMap_append]
      rw [published_connections] at ih
      rw [ih]
      congr 1
      cases h : connections[n]? with
      | none => simp [h]
      | some oc => cases oc <;> simp [h]

/-- Membership in the `SENSORS` table, spelled out. -/
theorem mem_SENSORS_iff (count : Nat)
    (d : SwissPublicTransportSensorEntityDescription) :
    d ∈ SENSORS count ↔
      ((∃ i < count, d = departureDescription i) ∨ d = durationDescription ∨
        d = transfersDescription ∨ d = platformDescription ∨
        d = delayDescription) := by
  simp only [SENSORS, List.mem_append, List.mem_map, List.mem_range,
    List.mem_cons, List.mem_singleton, List.not_mem_nil, or_false]
  constructor
  · rintro (⟨i, hi, rfl⟩ | h | h | h | h)
    · exact Or.inl ⟨i, hi, rfl⟩
    all_goals simp [h]
  · rintro (⟨i, hi, rfl⟩ | h | h | h | h)
    · exact Or.inl ⟨i, hi, rfl⟩
    all_goals simp [h]

/-- Every entry of `SENSORS` has the same `exists_fn`: the Python test
`data_connection is not None`. -/
theorem exists_fn_eq_isSome (count : Nat)
    (d : SwissPublicTransportSensorEntityDescription)
    (hd : d ∈ SENSORS count) :
    d.exists_fn = fun oc => oc.isSome := by
  rcases (mem_SENSORS_iff count d).1 hd with ⟨i, hi, rfl⟩ | rfl | rfl | rfl | rfl <;> rfl

/-- The key of a departure description has length 9 or more, so it is never
one of the four short keys `duration`, `transfers`, `platform`, `delay`. -/
theorem departureDescription_key_length (i : Nat) :
    9 ≤ (departureDescription i).key.length := by
  have h : (departureDescription i).key.length =
      9 + (if i = 0 then "" else toString i).length := by
    rw [departureDescription]
    exact String.length_append _ _
  omega

/-! ### Claim theorems -/

/-- C1: for every poll in which the upstream fetch succeeds, the published
Result Set has length at most the configured connection count, and it has no
null slots: every record at every index is a `DataConnection` built from a
non-null upstream slot. -/
theorem C1_result_set_bounded_and_non_null (parse : String → Option Int)
    (now : Int) (count : Nat) (from_name to_name : String)
    (conns : List (Option RawConnection)) (l : List DataConnection)
    (h : async_update_data parse now count from_name to_name (.ok conns) =
      .ok l) :
    l.length ≤ count ∧
      ∀ c ∈ l, ∃ i, ∃ raw, i < count ∧ conns[i]? = some (some raw) ∧
        c = dataConnectionOf parse now from_name to_name raw := by
  have hl : published_connections parse now count from_name to_name conns = l := by
    simpa [async_update_data] using h
  subst hl
  constructor
  · rw [published_connections_eq_take]
    exact le_trans (List.length_filterMap_le _ _) (List.length_take_le _ _)
  · intro c hc
    rw [published_connections] at hc
    obtain ⟨i, hi, hfi⟩ := List.mem_filterMap.1 hc
    rw [List.mem_range] at hi
    refine ⟨i, ?_⟩
    cases hcs : conns[i]? with
    | none => rw [hcs] at hfi; exact absurd hfi (by simp)
    | some oc =>
        cases oc with
        | none => rw [hcs] at hfi; exact absurd hfi (by simp)
        | some raw =>
            rw [hcs] at hfi
            exact ⟨raw, hi, rfl, (Option.some.inj hfi).symm⟩

/-- C1 witness: the theorem applied to a concrete successful poll. -/
theorem C1_witness :
    (published_connections (fun _ => none) 0 3 "A" "B"
        [some ⟨"x", "n", "p", "t", "u", 0⟩]).length ≤ 3 ∧
      ∀ c ∈ published_connections (fun _ => none) 0 3 "A" "B"
          [some ⟨"x", "n", "p", "t", "u", 0⟩],
        ∃ i, ∃ raw, i < 3 ∧
          ([some ⟨"x", "n", "p", "t", "u", 0⟩] :
            List (Option RawConnection))[i]? = some (some raw) ∧
          c = dataConnectionOf (fun _ => none) 0 "A" "B" raw :=
  C1_result_set_bounded_and_non_null (fun _ => none) 0 3 "A" "B"
    [some ⟨"x", "n", "p", "t", "u", 0⟩] _ rfl

/-- C2: if the upstream fetch raises, `_async_update_data` raises
`UpdateFailed`, the refresh step emits the update-failed signal and the
previously published Result Set is unchanged; when the fetch succeeds, no
such signal is emitted. -/
theorem C2_failure_keeps_data_and_signals (st : CoordinatorState)
    (parse : String → Option Int) (now : Int) (count : Nat)
    (from_name to_name : String) (e : OpendataTransportError)
    (conns : List (Option RawConnection)) :
    ((refreshStep st
        (async_update_data parse now count from_name to_name (.error e))).1.data
          = st.data ∧
      (refreshStep st
        (async_update_data parse now count from_name to_name (.error e))).2
          = true) ∧
    (refreshStep st
        (async_update_data parse now count from_name to_name (.ok conns))).2
          = false :=
  ⟨⟨rfl, rfl⟩, rfl⟩

/-- C3: a record's remaining time is the parsed departure minus the current
local time; `None` when the departure does not parse; and exactly 5 minutes
when the departure parses to now plus 5 minutes. -/
theorem C3_remaining_time_correct (parse : String → Option Int) (now : Int)
    (departure : String) :
    (parse departure = none → remaining_time parse now departure = none) ∧
    (∀ t, parse departure = some t →
      remaining_time parse now departure = some (t - now)) ∧
    (parse departure = some (now + 5 * 60) →
      remaining_time parse now departure = some (5 * 60)) := by
  refine ⟨fun h => by simp [remaining_time, h],
    fun t h => by simp [remaining_time, h],
    fun h => by simp [remaining_time, h]⟩

/-- C3 witness: a parse function sending everything to 400, with the current
time at 100, realizes the now-plus-5-minutes case. -/
theorem C3_witness :
    ((fun _ : String => some (400 : Int)) "x" = some (100 + 5 * 60) ∧
      remaining_time (fun _ : String => some (400 : Int)) 100 "x" =
        some (5 * 60)) :=
  ⟨by norm_num,
    (C3_remaining_time_correct (fun _ => some 400) 100 "x").2.2 (by norm_num)⟩

/-- C4: evaluating the code at the failing input. On an empty upstream list
the published Result Set is empty, but every view's `exists` check raises
`IndexError` instead of totally returning `false`: `enabled` subscripts the
empty list via `coordinator.data[index or 0]` before `exists_fn` can run.
`native_value` raises the same way. -/
theorem C4_enabled_raises_on_empty_result_set (parse : String → Option Int)
    (now : Int) (count : Nat) (from_name to_name : String)
    (d : SwissPublicTransportSensorEntityDescription) :
    published_connections parse now count from_name to_name [] = [] ∧
    SwissPublicTransportSensor.enabled d [] = .error .indexError ∧
    SwissPublicTransportSensor.native_value d [] = .error .indexError := by
  refine ⟨?_, ?_, ?_⟩
  · rw [published_connections_eq_take, List.take_nil]
    rfl
  · simp [SwissPublicTransportSensor.enabled]
  · simp [SwissPublicTransportSensor.native_value]

/-- The upstream response refuting C5 as stated: four entries, one of them
non-null, sitting past the configured count of 3. -/
def cexConnections : List (Option RawConnection) :=
  [none, none, none, some ⟨"x", "n", "p", "t", "u", 0⟩]

/-- C5 counterexample: `cexConnections` has 1 non-null connection, fewer
than the configured count 3, yet the code publishes the empty Result Set,
not those available connections. -/
theorem C5_counterexample :
    (cexConnections.filterMap id).length < 3 ∧
    published_connections (fun _ => none) 0 3 "A" "B" cexConnections = [] ∧
    (cexConnections.filterMap id).map
        (dataConnectionOf (fun _ => none) 0 "A" "B") ≠ [] := by
  refine ⟨by decide, rfl, by decide⟩

/-- C5 (amended): for every upstream response with fewer entries than the
configured count, the published Result Set consists exactly of the non-null
connections, in upstream order, with no padding entries. -/
theorem C5_truncation_no_padding (parse : String → Option Int) (now : Int)
    (count : Nat) (from_name to_name : String)
    (conns : List (Option RawConnection)) (h : conns.length < count) :
    published_connections parse now count from_name to_name conns =
      (conns.filterMap id).map
        (dataConnectionOf parse now from_name to_name) := by
  rw [published_connections_eq_take, List.take_of_length_le h.le,
    List.map_filterMap]
  rfl

/-- C5 witness: a two-entry upstream response against a count of 3. -/
theorem C5_witness :
    published_connections (fun _ => none) 0 3 "A" "B"
        [some ⟨"x", "n", "p", "t", "u", 0⟩, none] =
      (([some ⟨"x", "n", "p", "t", "u", 0⟩, none] :
          List (Option RawConnection)).filterMap id).map
        (dataConnectionOf (fun _ => none) 0 "A" "B") :=
  C5_truncation_no_padding (fun _ => none) 0 3 "A" "B"
    [some ⟨"x", "n", "p", "t", "u", 0⟩, none] (by norm_num)

/-- A parse function for the worked example: three departure strings mapping
to the timestamps 120, 600 and 1500 (now plus 2, 10 and 25 minutes at
now = 0). -/
def exampleParse : String → Option Int := fun s =>
  if s = "d120" then some 120
  else if s = "d600" then some 600
  else if s = "d1500" then some 1500
  else none

/-- The worked example's upstream response: three records with departures at
now plus 2, 10 and 25 minutes and delays 0, 1, 0. -/
def exampleConnections : List (Option RawConnection) :=
  [some ⟨"d120", "n1", "p1", "t1", "u1", 0⟩,
    some ⟨"d600", "n2", "p2", "t2", "u2", 1⟩,
    some ⟨"d1500", "n3", "p3", "t3", "u3", 0⟩]

/-- The Result Set the coordinator publishes for the worked example. -/
def exampleData : List DataConnection :=
  published_connections exampleParse 0 3 "A" "B" exampleConnections

/-- C6 counterexample: the Result Set of the worked example has 3 records,
but the one and only `delay` view is bound via `index or 0` to slot 0 and
reports 0, not 1: no delay view is bound to index 1. -/
theorem C6_counterexample :
    exampleData.length = 3 ∧
    ((SENSORS 3).filter (fun d => d.key == "delay")).map
        (fun d => SwissPublicTransportSensor.native_value d exampleData) =
      [.ok (.int 0)] ∧
    ((SENSORS 3).filter (fun d => d.key == "delay")).map
        (fun d => pyOr d.index 0) = [0] ∧
    Except.ok (PyValue.int 0) ≠ (Except.ok (PyValue.int 1) :
      Except PyError PyValue) := by
  refine ⟨rfl, rfl, rfl, by simp⟩

/-- C6 (amended): for the worked example, the Result Set has 3 records; the
`delay` view (whose `None` index binds it to slot 0) reports 0, while the
delay field of the record at index 1 is 1; and the departure0 view's value
equals the first record's departure timestamp. -/
theorem C6_example_views :
    exampleData.length = 3 ∧
    ((SENSORS 3).filter (fun d => d.key == "delay")).map
        (fun d => SwissPublicTransportSensor.native_value d exampleData) =
      [.ok (.int 0)] ∧
    exampleData[1]?.map (fun c => c.delay) = some 1 ∧
    ((SENSORS 3).filter (fun d => d.translation_key == "departure0")).map
        (fun d => SwissPublicTransportSensor.native_value d exampleData) =
      [.ok (.datetime 120)] ∧
    exampleData[0]?.map (fun c => c.departure) = some (some 120) := by
  refine ⟨rfl, rfl, rfl, rfl, rfl⟩

/-- C7: views are pure functions of the published Result Set: evaluating
`enabled` or `native_value` leaves the coordinator state unchanged, and two
evaluations over the same Result Set yield the same result. -/
theorem C7_views_pure (d : SwissPublicTransportSensorEntityDescription)
    (st st2 : CoordinatorState) (h : st.data = st2.data) :
    (runEnabled d st).2 = st ∧ (runNativeValue d st).2 = st ∧
    (runEnabled d st).1 = (runEnabled d st2).1 ∧
    (runNativeValue d st).1 = (runNativeValue d st2).1 := by
  refine ⟨rfl, rfl, ?_, ?_⟩ <;> simp [runEnabled, runNativeValue, h]

/-- C7 witness: two states sharing the same (absent) Result Set. -/
theorem C7_witness :
    (runEnabled durationDescription ⟨none, false⟩).2 =
        (⟨none, false⟩ : CoordinatorState) ∧
      (runNativeValue durationDescription ⟨none, false⟩).2 =
        (⟨none, false⟩ : CoordinatorState) ∧
      (runEnabled durationDescription ⟨none, false⟩).1 =
        (runEnabled durationDescription ⟨none, true⟩).1 ∧
      (runNativeValue durationDescription ⟨none, false⟩).1 =
        (runNativeValue durationDescription ⟨none, true⟩).1 :=
  C7_views_pure durationDescription ⟨none, false⟩ ⟨none, true⟩ rfl

/-- C8: the static `SENSORS` table maps every departure view (the entries
carrying a slot index) to device class timestamp with no unit, the duration
view to device class duration with unit seconds, and the delay view to
device class duration with unit minutes. -/
theorem C8_static_table (count : Nat)
    (d : SwissPublicTransportSensorEntityDescription)
    (hd : d ∈ SENSORS count) :
    (d.index.isSome = true →
      d.device_class = some SensorDeviceClass.timestamp ∧
        d.native_unit_of_measurement = none) ∧
    (d.key = "duration" →
      d.device_class = some SensorDeviceClass.duration ∧
        d.native_unit_of_measurement = some UnitOfTime.seconds) ∧
    (d.key = "delay" →
      d.device_class = some SensorDeviceClass.duration ∧
        d.native_unit_of_measurement = some UnitOfTime.minutes) := by
  rcases (mem_SENSORS_iff count d).1 hd with ⟨i, hi, rfl⟩ | rfl | rfl | rfl | rfl
  · refine ⟨fun _ => ⟨rfl, rfl⟩, fun h => ?_, fun h => ?_⟩ <;>
      · have h9 := departureDescription_key_length i
        rw [h] at h9
        exact absurd h9 (by decide)
  · exact ⟨fun h => absurd h (by decide), fun _ => ⟨rfl, rfl⟩,
      fun h => absurd h (by decide)⟩
  · exact ⟨fun h => absurd h (by decide), fun h => absurd h (by decide),
      fun h => absurd h (by decide)⟩
  · exact ⟨fun h => absurd h (by decide), fun h => absurd h (by decide),
      fun h => absurd h (by decide)⟩
  · exact ⟨fun h => absurd h (by decide), fun h => absurd h (by decide),
      fun _ => ⟨rfl, rfl⟩⟩

/-- C8 witness: the duration view inside `SENSORS 3`. -/
theorem C8_witness :
    (durationDescription.index.isSome = true →
      durationDescription.device_class = some SensorDeviceClass.timestamp ∧
        durationDescription.native_unit_of_measurement = none) ∧
    (durationDescription.key = "duration" →
      durationDescription.device_class = some SensorDeviceClass.duration ∧
        durationDescription.native_unit_of_measurement =
          some UnitOfTime.seconds) ∧
    (durationDescription.key = "delay" →
      durationDescription.device_class = some SensorDeviceClass.duration ∧
        durationDescription.native_unit_of_measurement =
          some UnitOfTime.minutes) :=
  C8_static_table 3 durationDescription
    ((mem_SENSORS_iff 3 durationDescription).2 (Or.inr (Or.inl rfl)))

/-- C9: exactly the duration, transfers, platform and delay views carry no
slot index; `index or 0` maps both `None` and `0` to 0, so every such view
and the departure view at slot 0 read slot 0 of the Result Set in both
`enabled` and `native_value`. -/
theorem C9_none_index_reads_slot_zero (count : Nat)
    (d : SwissPublicTransportSensorEntityDescription)
    (hd : d ∈ SENSORS count) (data : List DataConnection) :
    (d.index = none ↔
      (d = durationDescription ∨ d = transfersDescription ∨
        d = platformDescription ∨ d = delayDescription)) ∧
    pyOr none 0 = 0 ∧ pyOr (some 0) 0 = 0 ∧
    (d.index = none ∨ d.index = some 0 →
      pyOr d.index 0 = 0 ∧
      SwissPublicTransportSensor.enabled d data =
        (match data[0]? with
          | some c => .ok (d.exists_fn (some c))
          | none => .error .indexError) ∧
      SwissPublicTransportSensor.native_value d data =
        (match data[0]? with
          | some c => .ok (d.value_fn c)
          | none => .error .indexError)) := by
  have hpy : d.index = none ∨ d.index = some 0 → pyOr d.index 0 = 0 := by
    rintro (h | h) <;> simp [pyOr, h]
  refine ⟨?_, rfl, rfl, fun h => ⟨hpy h, ?_, ?_⟩⟩
  · constructor
    · intro h
      rcases (mem_SENSORS_iff count d).1 hd with
        ⟨i, hi, rfl⟩ | rfl | rfl | rfl | rfl
      · exact absurd h (by simp [departureDescription])
      · exact Or.inl rfl
      · exact Or.inr (Or.inl rfl)
      · exact Or.inr (Or.inr (Or.inl rfl))
      · exact Or.inr (Or.inr (Or.inr rfl))
    · rintro (rfl | rfl | rfl | rfl) <;> rfl
  · cases hd0 : data[0]? with
    | none => simp [SwissPublicTransportSensor.enabled, hpy h, hd0]
    | some c => simp [SwissPublicTransportSensor.enabled, hpy h, hd0]
  · cases hd0 : data[0]? with
    | none => simp [SwissPublicTransportSensor.native_value, hpy h, hd0]
    | some c => simp [SwissPublicTransportSensor.native_value, hpy h, hd0]

/-- C9 witness: the delay view from `SENSORS 3`, read over the empty Result
Set. -/
theorem C9_witness :
    (delayDescription.index = none ↔
      (delayDescription = durationDescription ∨
        delayDescription = transfersDescription ∨
        delayDescription = platformDescription ∨
        delayDescription = delayDescription)) ∧
    pyOr none 0 = 0 ∧ pyOr (some 0) 0 = 0 ∧
    (delayDescription.index = none ∨ delayDescription.index = some 0 →
      pyOr delayDescription.index 0 = 0 ∧
      SwissPublicTransportSensor.enabled delayDescription [] =
        (match ([] : List DataConnection)[0]? with
          | some c => .ok (delayDescription.exists_fn (some c))
          | none => .error .indexError) ∧
      SwissPublicTransportSensor.native_value delayDescription [] =
        (match ([] : List DataConnection)[0]? with
          | some c => .ok (delayDescription.value_fn c)
          | none => .error .indexError)) :=
  C9_none_index_reads_slot_zero 3 delayDescription
    ((mem_SENSORS_iff 3 delayDescription).2
      (Or.inr (Or.inr (Or.inr (Or.inr rfl))))) []

/-- C10: on any Result Set produced by a successful poll, every view's
`exists_fn` returns true on every record: the coordinator filters out null
slots, and the record handed to `exists_fn` is never `None`. -/
theorem C10_exists_fn_true_on_published (parse : String → Option Int)
    (now : Int) (count : Nat) (from_name to_name : String)
    (conns : List (Option RawConnection)) (l : List DataConnection)
    (h : async_update_data parse now count from_name to_name (.ok conns) =
      .ok l) :
    (SENSORS count).all
      (fun d => l.all (fun c => d.exists_fn (some c))) = true := by
  have hl : published_connections parse now count from_name to_name conns = l := by
    simpa [async_update_data] using h
  subst hl
  rw [List.all_eq_true]
  intro d hd
  rw [List.all_eq_true]
  intro c _
  rw [exists_fn_eq_isSome count d hd]
  rfl

/-- C10 witness: a concrete successful poll with one record. -/
theorem C10_witness :
    (SENSORS 3).all (fun d =>
      (published_connections (fun _ => none) 0 3 "A" "B"
          [some ⟨"x", "n", "p", "t", "u", 0⟩]).all
        (fun c => d.exists_fn (some c))) = true :=
  C10_exists_fn_true_on_published (fun _ => none) 0 3 "A" "B"
    [some ⟨"x", "n", "p", "t", "u", 0⟩] _ rfl

end SwissPublicTransport
